import Mathlib

/-
Formal model of the stealthwright browser-automation library
(src/lib/browser.js, src/lib/page.js, src/lib/errors.js).

The transport layer of `Browser` (`sendCommand`, `setupMessageHandling`,
`close`) is modelled as a deterministic state machine over an explicit
event alphabet: the Node.js runtime is single-threaded, so every
callback (inbound websocket message, timer firing, send-error callback,
close event) runs atomically; each such callback is one event.  Pure
helpers (`parseProxyUrl`, the navigation readiness predicate of
`Page._waitForNavigation`, the retry loop of `Browser.attachToPage`,
`BrowserContext.newPage`, `Page.close`/`Page.goto`) are modelled as
Lean functions.
-/

namespace Transport

/-- Errors raised by the library.  `generic msg` is a plain JavaScript
`Error(msg)`; the remaining constructors are the classes defined in
src/lib/errors.js. -/
inductive JSError where
  | generic (msg : String)
  | timeoutError (msg : String)
  | navigationError (msg : String)
  | evaluationError (msg : String)
  | elementNotFoundError (selector : String)
  | browserLaunchError (msg : String)
  | protocolError (msg : String)
  | browserClosedError
deriving DecidableEq

/-- True exactly for the `TimeoutError` class of src/lib/errors.js. -/
def isTimeoutError : JSError → Bool
  | .timeoutError _ => true
  | _ => false

/-- True exactly for the `BrowserClosedError` class of src/lib/errors.js. -/
def isBrowserClosedError : JSError → Bool
  | .browserClosedError => true
  | _ => false

/-- True when the error is an instance of one of the named error classes of
src/lib/errors.js (as opposed to a plain `Error`). -/
def isNamedErrorClass : JSError → Bool
  | .generic _ => false
  | _ => true

/-- How a pending call was settled: `resolved` with the inbound response
message, or `rejected` with an error. -/
inductive Settlement where
  | resolved (payload : String)
  | rejected (err : JSError)
deriving DecidableEq

/-- The per-command timeout hard-coded in `Browser.sendCommand`
(browser.js line 552: `}, 30000);`). -/
def commandTimeoutMs : Nat := 30000

/-- One entry of the `_messageCallbacks` table: the message id, the CDP
method of the command (captured by the timeout closure), and the delay of
the timer armed for it. -/
structure PCall where
  id : Nat
  method : String
  delayMs : Nat
deriving DecidableEq

/-- Events driving the transport state machine.  `send m e` is one
`sendCommand(m, _)` invocation, where `e = some msg` means the
websocket-level send callback reported an error; `response id p` is an
inbound message carrying that id; `timeoutFire id` is the firing of the
30s timer armed for that id; `closeConn` is the websocket `close` event. -/
inductive TEv where
  | send (method : String) (sendErr : Option String)
  | response (id : Nat) (payload : String)
  | timeoutFire (id : Nat)
  | closeConn
deriving DecidableEq

/-- Transport state: the `messageId` counter, the `_messageCallbacks`
table (as a list of pending calls), and a log of every settlement
(resolution or rejection) that has occurred, in order. -/
structure TState where
  messageId : Nat
  pending : List PCall
  log : List (Nat × Settlement)
deriving DecidableEq

/-- Delete the table entry for `id` (`this._messageCallbacks.delete(id)`;
ids are unique in the table, so filtering is deletion). -/
def removeId (l : List PCall) (id : Nat) : List PCall :=
  l.filter (fun c => c.id != id)

/-- Look up the table entry for `id` (`this._messageCallbacks.get(id)`). -/
def findCall (l : List PCall) (id : Nat) : Option PCall :=
  l.find? (fun c => c.id == id)

/-- One atomic callback of browser.js:
* `send`: `this.messageId++`, register the callback under the fresh id,
  `conn.send` — on send error delete the entry and reject (lines 537-544);
* `response`: the `message` handler — if the id has an entry, resolve it
  and delete it, otherwise drop the message silently (lines 482-497);
* `timeoutFire`: the 30s timer — if the entry is still present, delete it
  and reject with a plain `Error` (lines 547-552);
* `closeConn`: the `close` handler — reject every entry with a plain
  `Error('WebSocket connection closed')` and delete them all
  (lines 499-506). -/
def step (s : TState) (e : TEv) : TState :=
  match e with
  | .send m sendErr =>
    let id := s.messageId + 1
    let s1 : TState :=
      { messageId := id
        pending := s.pending ++ [⟨id, m, commandTimeoutMs⟩]
        log := s.log }
    match sendErr with
    | some em =>
      { s1 with
        pending := removeId s1.pending id
        log := s1.log ++
          [(id, .rejected (.generic ("Failed to send WebSocket message: " ++ em)))] }
    | none => s1
  | .response id payload =>
    match findCall s.pending id with
    | some _ =>
      { s with
        pending := removeId s.pending id
        log := s.log ++ [(id, .resolved payload)] }
    | none => s
  | .timeoutFire id =>
    match findCall s.pending id with
    | some c =>
      { s with
        pending := removeId s.pending id
        log := s.log ++
          [(id, .rejected (.generic ("Command " ++ c.method ++ " timed out after 30 seconds")))] }
    | none => s
  | .closeConn =>
    { s with
      pending := []
      log := s.log ++ s.pending.map
        (fun c => (c.id, Settlement.rejected (.generic "WebSocket connection closed"))) }

/-- The state of a freshly constructed `Browser` (`this.messageId = 0`,
empty `_messageCallbacks`). -/
def initState : TState := ⟨0, [], []⟩

/-- Run a sequence of events from the initial state. -/
def run (tr : List TEv) : TState := tr.foldl step initState

/-- How many times the log settles the call with the given id. -/
def settleCount (log : List (Nat × Settlement)) (id : Nat) : Nat :=
  log.countP (fun e => e.1 == id)

/-- How many table entries carry the given id. -/
def pcount (l : List PCall) (id : Nat) : Nat :=
  l.countP (fun c => c.id == id)

/-- Ids currently in the pending-call table. -/
def pendingIds (s : TState) : List Nat := s.pending.map (fun c => c.id)

/-- The message ids allocated by the `send` events of a trace, in order,
starting from counter value `mid` (each `sendCommand` does
`this.messageId++` and uses the new value). -/
def allocIdsFrom (mid : Nat) : List TEv → List Nat
  | [] => []
  | .send _ _ :: rest => (mid + 1) :: allocIdsFrom (mid + 1) rest
  | .response _ _ :: rest => allocIdsFrom mid rest
  | .timeoutFire _ :: rest => allocIdsFrom mid rest
  | .closeConn :: rest => allocIdsFrom mid rest

/-- The message ids allocated by the sends of a trace run from the
initial state. -/
def allocIds (tr : List TEv) : List Nat := allocIdsFrom 0 tr

/-- State invariant maintained by every event:
ids in the table are positive, at most the counter, pairwise distinct,
not yet settled, and carry the 30s timer delay; no id is ever settled
twice; ids above the counter are untouched. -/
structure Inv (s : TState) : Prop where
  pend_pos : ∀ c ∈ s.pending, 1 ≤ c.id
  pend_le : ∀ c ∈ s.pending, c.id ≤ s.messageId
  pend_once : ∀ id, pcount s.pending id ≤ 1
  pend_unsettled : ∀ c ∈ s.pending, settleCount s.log c.id = 0
  settle_le : ∀ id, settleCount s.log id ≤ 1
  fresh_unsettled : ∀ id, s.messageId < id → settleCount s.log id = 0
  delay30 : ∀ c ∈ s.pending, c.delayMs = commandTimeoutMs

end Transport

namespace Nav

/-- The readiness check made by one poll iteration of
`Page._waitForNavigation` (page.js lines 916-941): given the `waitUntil`
mode and the observed `document.readyState` string, return `none` if the
poll does not complete, or `some d` if it completes after an additional
delay of `d` milliseconds (0 except in the two networkidle modes, which
sleep 500ms / 300ms after observing "complete"). -/
def navCheck (waitUntil readyState : String) : Option Nat :=
  if waitUntil = "load" then
    if readyState = "complete" then some 0 else none
  else if waitUntil = "domcontentloaded" then
    if readyState = "interactive" ∨ readyState = "complete" then some 0 else none
  else if waitUntil = "networkidle0" then
    if readyState = "complete" then some 500 else none
  else if waitUntil = "networkidle2" then
    if readyState = "complete" then some 300 else none
  else
    if readyState = "complete" then some 0 else none

/-- The polling loop of `Page._waitForNavigation` over a sequence of
observed readiness flags: returns the index of the poll at which the
wait resolves together with the extra quiet delay taken there, or `none`
if no observation in the sequence completes it. -/
def navLoop (waitUntil : String) : List String → Option (Nat × Nat)
  | [] => none
  | rs :: rest =>
    match navCheck waitUntil rs with
    | some d => some (0, d)
    | none => (navLoop waitUntil rest).map (fun p => (p.1 + 1, p.2))

end Nav

namespace Attach

open Transport

/-- `maxRetries` of `Browser.attachToPage` (browser.js line 399). -/
def maxRetries : Nat := 20

/-- The `setTimeout(tryConnect, 1000)` spacing between retries. -/
def retryDelayMs : Nat := 1000

/-- Outcome of one HTTP GET against the discovery endpoint
`http://localhost:PORT/json`: a parsed JSON target list, a connection
error, or a body that fails to parse as JSON. -/
inductive Attempt where
  | ok (targets : List String)
  | httpError (msg : String)
  | parseError (msg : String)
deriving DecidableEq

/-- Whether the attempt succeeded. -/
def Attempt.isOk : Attempt → Bool
  | .ok _ => true
  | _ => false

deriving instance DecidableEq for Except

/-- Result of the discovery polling loop: the settled promise, the
number of HTTP attempts made, and the total retry delay slept. -/
structure FetchResult where
  result : Except JSError (List String)
  attempts : Nat
  totalDelayMs : Nat
deriving DecidableEq

/-- The `tryConnect` retry loop of `Browser.attachToPage`
(browser.js lines 398-431): attempt `attempt`, with `retries` retries
already used.  On failure, retry after 1s while `retries < maxRetries`,
otherwise reject with a plain `Error` whose message depends on the kind
of the last failure. -/
def fetchPagesAux (outcome : Nat → Attempt) (attempt retries : Nat) : FetchResult :=
  match outcome attempt with
  | .ok targets => ⟨.ok targets, attempt + 1, retries * retryDelayMs⟩
  | .httpError m =>
    if h : retries < maxRetries then
      fetchPagesAux outcome (attempt + 1) (retries + 1)
    else
      ⟨.error (.generic ("Failed to fetch active pages: " ++ m)),
        attempt + 1, retries * retryDelayMs⟩
  | .parseError m =>
    if h : retries < maxRetries then
      fetchPagesAux outcome (attempt + 1) (retries + 1)
    else
      ⟨.error (.generic ("Failed to parse JSON: " ++ m)),
        attempt + 1, retries * retryDelayMs⟩
termination_by maxRetries + 1 - retries
decreasing_by
  all_goals omega

/-- The whole polling phase of `attachToPage`, starting at attempt 0 with
no retries used. -/
def fetchPages (outcome : Nat → Attempt) : FetchResult :=
  fetchPagesAux outcome 0 0

/-- A discovery endpoint that refuses every connection. -/
def allFail : Nat → Attempt := fun _ => .httpError "connect ECONNREFUSED"

end Attach

namespace Registry

open Transport

/-- One entry of the `Target.getTargets` reply. -/
structure TargetInfo where
  targetId : String
  ttype : String
  url : String
deriving DecidableEq

/-- The remote browser's target list together with a counter for minting
fresh target ids on `Target.createTarget`. -/
structure RemoteState where
  targets : List TargetInfo
  nextId : Nat
deriving DecidableEq

/-- Per-context state: the `_firstPageCreated` flag of
`BrowserContext` (browser.js line 645). -/
structure CtxState where
  firstPageCreated : Bool
deriving DecidableEq

/-- The per-browser fields `newPage` consults: `initialTargetId`
captured during `attachToPage` (browser.js line 443). -/
structure BrowserModel where
  initialTargetId : Option String
deriving DecidableEq

/-- Remote commands `newPage` can issue. -/
inductive Cmd where
  | getTargets
  | createTarget
  | attachToTarget
deriving DecidableEq

/-- Result of one `newPage` invocation: the target id of the returned
page, the updated context flag, the updated remote state, and the
commands issued. -/
structure NewPageResult where
  pageTargetId : String
  ctx : CtxState
  remote : RemoteState
  cmds : List Cmd
deriving DecidableEq

/-- Fresh target id minted by the remote for `Target.createTarget`. -/
def freshTargetId (n : Nat) : String := "target-" ++ toString n

/-- `BrowserContext.newPage` (browser.js lines 652-710).  If the
context's `_firstPageCreated` flag is unset and the browser captured an
initial target id, the flag is set, `Target.getTargets` is issued, and
the initial page target is returned if it is still listed; otherwise
(and on every later call on that context) `Target.createTarget` and
`Target.attachToTarget` create and attach a fresh target. -/
def newPage (br : BrowserModel) (ctx : CtxState) (remote : RemoteState) : NewPageResult :=
  let createNew : CtxState → List Cmd → NewPageResult := fun ctx2 pre =>
    let tid := freshTargetId remote.nextId
    { pageTargetId := tid
      ctx := ctx2
      remote :=
        { targets := remote.targets ++ [⟨tid, "page", "about:blank"⟩]
          nextId := remote.nextId + 1 }
      cmds := pre ++ [.createTarget, .attachToTarget] }
  match br.initialTargetId, ctx.firstPageCreated with
  | some init, false =>
    let ctx1 : CtxState := ⟨true⟩
    match remote.targets.find? (fun t => t.targetId == init && t.ttype == "page") with
    | some t =>
      { pageTargetId := t.targetId, ctx := ctx1, remote := remote, cmds := [.getTargets] }
    | none => createNew ctx1 [.getTargets]
  | _, _ => createNew ctx []

end Registry

namespace PageM

open Transport

/-- The fields of `Page` relevant to close/goto: the `closed` flag and
the tracked url (page.js lines 748-754). -/
structure PageState where
  closed : Bool
  url : String
deriving DecidableEq

/-- `Page.close` (page.js lines 1570-1584), with the outcome of the
underlying `Target.closeTarget` command passed in explicitly: if the
page is already closed it returns immediately, issuing no command and
leaving the state untouched; otherwise it issues `Target.closeTarget`
and sets the flag on success, or rethrows the command's error. -/
def pageClose (transport : Except JSError Unit) (p : PageState) :
    Except JSError PageState × List String :=
  if p.closed then (.ok p, [])
  else
    match transport with
    | .ok _ => (.ok { p with closed := true }, ["Target.closeTarget"])
    | .error e => (.error e, ["Target.closeTarget"])

/-- `Page.goto` (page.js lines 782-806), with the shared outcome of its
`sendCommand`/navigation-wait steps passed in explicitly.  The method
never consults `this.closed`: it issues its commands and, when the
transport succeeds, records the url and returns ok. -/
def pageGoto (transport : Except JSError Unit) (p : PageState) (url : String) :
    Except JSError PageState × List String :=
  match transport with
  | .ok _ => (.ok { p with url := url },
      ["Page.enable", "Network.enable", "Page.navigate"])
  | .error e => (.error e, ["Page.enable", "Network.enable", "Page.navigate"])

end PageM

namespace Proxy

/-- A JavaScript number restricted to what `parseInt(_, 10)` can
produce: an integer or `NaN`. -/
inductive JSNum where
  | int (n : Int)
  | nan
deriving DecidableEq

/-- Template-literal rendering of a `JSNum`. -/
def jsNumToString : JSNum → String
  | .int n => toString n
  | .nan => "NaN"

/-- JavaScript truthiness of a possibly-undefined string: `undefined`
and `""` are falsy. -/
def jsTruthy : Option String → Bool
  | none => false
  | some s => s != ""

/-- `str.includes(pat)` for a non-empty pattern, via `splitOn`. -/
def jsIncludes (s pat : String) : Bool :=
  (s.splitOn pat).length != 1

/-- `parseInt(x, 10)`: skip leading whitespace, read an optional sign
and then leading decimal digits; `NaN` when there are none (also for
`undefined`). -/
def parseIntJS (s : Option String) : JSNum :=
  match s with
  | none => .nan
  | some str =>
    let cs := str.toList.dropWhile (fun c => c == ' ' || c == '\t' || c == '\n' || c == '\r')
    let signed : Bool × List Char :=
      match cs with
      | '-' :: rest => (true, rest)
      | '+' :: rest => (false, rest)
      | _ => (false, cs)
    let digits := signed.2.takeWhile Char.isDigit
    if digits.isEmpty then .nan
    else
      let v : Nat := digits.foldl (fun a c => a * 10 + (c.toNat - 48)) 0
      if signed.1 then .int (-(v : Int)) else .int v

/-- The components `parseProxyUrl` computes before building its result
object. -/
structure RawProxy where
  protocol : String
  username : Option String
  password : Option String
  host : String
  portStr : Option String
deriving DecidableEq

/-- The object returned by `parseProxyUrl` (browser.js lines 101-116). -/
structure ProxyInfo where
  protocol : String
  username : Option String
  password : Option String
  host : String
  port : JSNum
  proxyServer : String
  hasAuth : Bool
  authString : Option String
  display : String
deriving DecidableEq

/-- The branch analysis inside the `try` block of `parseProxyUrl`
(browser.js lines 68-97).  An `Except.error` models a thrown exception
(the explicit `throw` for unsupported formats, and the `TypeError` hit
when the '@' sits before '://' so `hostPort` is `undefined`). -/
def parseProxyCore (proxyUrl : String) : Except String RawProxy :=
  let parts := proxyUrl.splitOn ":"
  match parts with
  | [host, port, username, password] =>
    .ok ⟨"http", some username, some password, host, some port⟩
  | _ =>
    if jsIncludes proxyUrl "@" then
      let pr : String × String :=
        if jsIncludes proxyUrl "://" then
          let ps := proxyUrl.splitOn "://"
          (((ps.get? 0).getD ""), ((ps.get? 1).getD ""))
        else ("http", proxyUrl)
      let ap := pr.2.splitOn "@"
      match ap.get? 1 with
      | none => .error "TypeError: hostPort is undefined"
      | some hostPort =>
        let up := ((ap.get? 0).getD "").splitOn ":"
        let username := up.get? 0
        let password := up.get? 1
        if jsIncludes hostPort ":" then
          let hp := hostPort.splitOn ":"
          .ok ⟨pr.1, username, password, (hp.get? 0).getD "", hp.get? 1⟩
        else
          .ok ⟨pr.1, username, password, hostPort,
            some (toString (if pr.1 = "https" then (443 : Nat) else 80))⟩
    else
      match parts with
      | [host, port] => .ok ⟨"http", none, none, host, some port⟩
      | _ => .error ("Unsupported proxy format: " ++ proxyUrl)

/-- The object literal returned at browser.js lines 101-116, built from
the parsed components: `port` passes through `parseInt(port, 10)` and
`proxyServer` is the template literal over protocol, host and port. -/
def mkProxyInfo (r : RawProxy) : ProxyInfo :=
  { protocol := r.protocol
    username := r.username
    password := r.password
    host := r.host
    port := parseIntJS r.portStr
    proxyServer := r.protocol ++ "://" ++ r.host ++ ":" ++ jsNumToString (parseIntJS r.portStr)
    hasAuth := jsTruthy r.username && jsTruthy r.password
    authString :=
      if jsTruthy r.username && jsTruthy r.password then
        some ((r.username.getD "") ++ ":" ++ (r.password.getD ""))
      else none
    display :=
      if jsTruthy r.username && jsTruthy r.password then
        r.protocol ++ "://" ++ r.host ++ ":" ++ jsNumToString (parseIntJS r.portStr) ++ " (with auth)"
      else r.protocol ++ "://" ++ r.host ++ ":" ++ jsNumToString (parseIntJS r.portStr) }

/-- `parseProxyUrl` (browser.js lines 67-121): the `try`/`catch` wrapper
returns `null` on any internal throw, and otherwise builds the result
object from the parsed components. -/
def parseProxyUrl (proxyUrl : String) : Option ProxyInfo :=
  match parseProxyCore proxyUrl with
  | .error _ => none
  | .ok r => some (mkProxyInfo r)

end Proxy

namespace Transport

theorem settleCount_append (l1 l2 : List (Nat × Settlement)) (id : Nat) :
    settleCount (l1 ++ l2) id = settleCount l1 id + settleCount l2 id := by
  simp [settleCount, List.countP_append]

theorem settleCount_single (j : Nat) (st : Settlement) (id : Nat) :
    settleCount [(j, st)] id = if j = id then 1 else 0 := by
  by_cases h : j = id <;> simp [settleCount, List.countP_cons, h]

theorem pcount_append (l1 l2 : List PCall) (id : Nat) :
    pcount (l1 ++ l2) id = pcount l1 id + pcount l2 id := by
  simp [pcount, List.countP_append]

theorem pcount_single (c : PCall) (id : Nat) :
    pcount [c] id = if c.id = id then 1 else 0 := by
  by_cases h : c.id = id <;> simp [pcount, List.countP_cons, h]

theorem pcount_eq_zero {l : List PCall} {id : Nat} :
    pcount l id = 0 ↔ ∀ c ∈ l, c.id ≠ id := by
  simp [pcount, List.countP_eq_zero]

theorem pcount_pos {l : List PCall} {id : Nat} :
    0 < pcount l id ↔ ∃ c ∈ l, c.id = id := by
  simp [pcount, List.countP_pos_iff]

theorem mem_removeId {l : List PCall} {id : Nat} {c : PCall} :
    c ∈ removeId l id ↔ c ∈ l ∧ c.id ≠ id := by
  simp [removeId, List.mem_filter]

theorem pcount_removeId_le (l : List PCall) (i id : Nat) :
    pcount (removeId l i) id ≤ pcount l id :=
  (List.filter_sublist l).countP_le _

theorem findCall_eq_some {l : List PCall} {id : Nat} {c : PCall}
    (h : findCall l id = some c) : c ∈ l ∧ c.id = id := by
  refine ⟨List.mem_of_find?_eq_some h, ?_⟩
  have := List.find?_some h
  simpa using this

theorem findCall_removeId (l : List PCall) (id : Nat) :
    findCall (removeId l id) id = none := by
  apply List.find?_eq_none.mpr
  intro c hc
  have := (mem_removeId.mp hc).2
  simpa using this

theorem settleCount_close_map (pending : List PCall) (id : Nat) :
    settleCount
      (pending.map (fun c => (c.id, Settlement.rejected (.generic "WebSocket connection closed"))))
      id = pcount pending id := by
  simp [settleCount, pcount, List.countP_map]
  rfl

theorem removeId_append_fresh {l : List PCall} {mid : Nat} (m : String) (d : Nat)
    (h : ∀ c ∈ l, c.id ≤ mid) :
    removeId (l ++ [⟨mid + 1, m, d⟩]) (mid + 1) = l := by
  rw [removeId, List.filter_append]
  have h1 : l.filter (fun c => c.id != mid + 1) = l := by
    apply List.filter_eq_self.mpr
    intro c hc
    have := h c hc
    simp only [bne_iff_ne, ne_eq]
    omega
  have h2 : List.filter (fun c => c.id != mid + 1) [(⟨mid + 1, m, d⟩ : PCall)] = [] := by
    simp
  rw [h1, h2, List.append_nil]

theorem inv_initState : Inv initState := by
  constructor <;> simp [initState, pcount, settleCount, pendingIds]

theorem inv_settle_found {s : TState} {id : Nat} {c : PCall} (st : Settlement)
    (h : Inv s) (hf : findCall s.pending id = some c) :
    Inv { s with pending := removeId s.pending id, log := s.log ++ [(id, st)] } := by
  obtain ⟨hmem, hid⟩ := findCall_eq_some hf
  have hidle : id ≤ s.messageId := hid ▸ h.pend_le c hmem
  constructor
  · intro c' hc'
    exact h.pend_pos c' (mem_removeId.mp hc').1
  · intro c' hc'
    exact h.pend_le c' (mem_removeId.mp hc').1
  · intro i
    exact le_trans (pcount_removeId_le _ _ _) (h.pend_once i)
  · intro c' hc'
    obtain ⟨hc'mem, hc'ne⟩ := mem_removeId.mp hc'
    dsimp only
    rw [settleCount_append, settleCount_single, h.pend_unsettled c' hc'mem,
      if_neg (Ne.symm hc'ne)]
  · intro i
    dsimp only
    rw [settleCount_append, settleCount_single]
    by_cases hi : id = i
    · subst hi
      have h0 : settleCount s.log id = 0 := by
        have := h.pend_unsettled c hmem
        rwa [hid] at this
      simp [h0]
    · rw [if_neg hi]
      have := h.settle_le i
      omega
  · intro i hi
    have hi' : s.messageId < i := hi
    dsimp only
    rw [settleCount_append, settleCount_single]
    have h0 := h.fresh_unsettled i hi'
    have hne : id ≠ i := by omega
    rw [h0, if_neg hne]
  · intro c' hc'
    exact h.delay30 c' (mem_removeId.mp hc').1

theorem inv_step {s : TState} (e : TEv) (h : Inv s) : Inv (step s e) := by
  cases e with
  | send m sendErr =>
    cases sendErr with
    | none =>
      show Inv {
        messageId := s.messageId + 1,
        pending := s.pending ++ [⟨s.messageId + 1, m, commandTimeoutMs⟩],
        log := s.log }
      constructor
      · intro c hc
        rcases List.mem_append.mp hc with hc | hc
        · exact h.pend_pos c hc
        · simp at hc; subst hc; simp
      · intro c hc
        dsimp only
        rcases List.mem_append.mp hc with hc | hc
        · exact le_trans (h.pend_le c hc) (Nat.le_succ _)
        · simp at hc; subst hc; simp
      · intro i
        dsimp only
        rw [pcount_append, pcount_single]
        by_cases hi : s.messageId + 1 = i
        · have h0 : pcount s.pending i = 0 := by
            apply pcount_eq_zero.mpr
            intro c hc
            have := h.pend_le c hc
            omega
          simp [h0, hi]
        · have := h.pend_once i
          rw [if_neg hi]
          omega
      · intro c hc
        rcases List.mem_append.mp hc with hc | hc
        · exact h.pend_unsettled c hc
        · simp at hc; subst hc
          exact h.fresh_unsettled _ (Nat.lt_succ_self _)
      · exact h.settle_le
      · intro i hi
        have hi' : s.messageId + 1 < i := hi
        exact h.fresh_unsettled i (by omega)
      · intro c hc
        rcases List.mem_append.mp hc with hc | hc
        · exact h.delay30 c hc
        · simp at hc; subst hc; rfl
    | some em =>
      show Inv {
        messageId := s.messageId + 1,
        pending := removeId (s.pending ++ [⟨s.messageId + 1, m, commandTimeoutMs⟩]) (s.messageId + 1),
        log := s.log ++
          [(s.messageId + 1,
            .rejected (.generic ("Failed to send WebSocket message: " ++ em)))] }
      rw [removeId_append_fresh m commandTimeoutMs h.pend_le]
      constructor
      · exact fun c hc => h.pend_pos c hc
      · intro c hc
        dsimp only
        exact le_trans (h.pend_le c hc) (Nat.le_succ _)
      · exact h.pend_once
      · intro c hc
        dsimp only
        rw [settleCount_append, settleCount_single, h.pend_unsettled c hc]
        have := h.pend_le c hc
        have hne : s.messageId + 1 ≠ c.id := by omega
        rw [if_neg hne]
      · intro i
        dsimp only
        rw [settleCount_append, settleCount_single]
        by_cases hi : s.messageId + 1 = i
        · have h0 : settleCount s.log i = 0 := h.fresh_unsettled i (by omega)
          rw [h0, if_pos hi]
        · rw [if_neg hi]
          have := h.settle_le i
          omega
      · intro i hi
        have hi' : s.messageId + 1 < i := hi
        dsimp only
        rw [settleCount_append, settleCount_single,
          h.fresh_unsettled i (by omega), if_neg (by omega)]
      · exact h.delay30
  | response id payload =>
    simp only [step]
    cases hf : findCall s.pending id with
    | none => exact h
    | some c => exact inv_settle_found _ h hf
  | timeoutFire id =>
    simp only [step]
    cases hf : findCall s.pending id with
    | none => exact h
    | some c => exact inv_settle_found _ h hf
  | closeConn =>
    show Inv {
      messageId := s.messageId,
      pending := [],
      log := s.log ++ s.pending.map
        (fun c => (c.id, Settlement.rejected (.generic "WebSocket connection closed"))) }
    constructor
    · intro c hc; simp at hc
    · intro c hc; simp at hc
    · intro i; simp [pcount]
    · intro c hc; simp at hc
    · intro i
      dsimp only
      rw [settleCount_append, settleCount_close_map]
      by_cases h0 : pcount s.pending i = 0
      · have := h.settle_le i
        omega
      · obtain ⟨c, hc, hcid⟩ := pcount_pos.mp (Nat.pos_of_ne_zero h0)
        have hu : settleCount s.log i = 0 := hcid ▸ h.pend_unsettled c hc
        have := h.pend_once i
        omega
    · intro i hi
      have hi' : s.messageId < i := hi
      dsimp only
      rw [settleCount_append, settleCount_close_map,
        h.fresh_unsettled i hi']
      have h0 : pcount s.pending i = 0 := by
        apply pcount_eq_zero.mpr
        intro c hc
        have := h.pend_le c hc
        omega
      omega
    · intro c hc; simp at hc

theorem inv_foldl : ∀ (tr : List TEv) (s : TState), Inv s → Inv (tr.foldl step s)
  | [], _, h => h
  | e :: rest, s, h => inv_foldl rest (step s e) (inv_step e h)

theorem inv_run (tr : List TEv) : Inv (run tr) :=
  inv_foldl tr initState inv_initState

theorem run_append (tr tr2 : List TEv) :
    run (tr ++ tr2) = tr2.foldl step (run tr) := by
  simp [run, List.foldl_append]

theorem resolved_mem_step {s : TState} {e : TEv} {id : Nat} {v : String}
    (h : (id, Settlement.resolved v) ∈ (step s e).log) :
    (id, Settlement.resolved v) ∈ s.log ∨ e = TEv.response id v := by
  cases e with
  | send m sendErr =>
    cases sendErr with
    | none => exact Or.inl h
    | some em =>
      have h' : (id, Settlement.resolved v) ∈
          s.log ++ [(s.messageId + 1,
            Settlement.rejected (.generic ("Failed to send WebSocket message: " ++ em)))] := h
      rcases List.mem_append.mp h' with h'' | h''
      · exact Or.inl h''
      · simp at h''
  | response i p =>
    simp only [step] at h
    cases hf : findCall s.pending i with
    | none => rw [hf] at h; exact Or.inl h
    | some c =>
      rw [hf] at h
      have h' : (id, Settlement.resolved v) ∈ s.log ++ [(i, Settlement.resolved p)] := h
      rcases List.mem_append.mp h' with h'' | h''
      · exact Or.inl h''
      · simp at h''
        exact Or.inr (by rw [h''.1, h''.2])
  | timeoutFire i =>
    simp only [step] at h
    cases hf : findCall s.pending i with
    | none => rw [hf] at h; exact Or.inl h
    | some c =>
      rw [hf] at h
      have h' : (id, Settlement.resolved v) ∈ s.log ++
          [(i, Settlement.rejected (.generic ("Command " ++ c.method ++ " timed out after 30 seconds")))] := h
      rcases List.mem_append.mp h' with h'' | h''
      · exact Or.inl h''
      · simp at h''
  | closeConn =>
    have h' : (id, Settlement.resolved v) ∈ s.log ++ s.pending.map
        (fun c => (c.id, Settlement.rejected (.generic "WebSocket connection closed"))) := h
    rcases List.mem_append.mp h' with h'' | h''
    · exact Or.inl h''
    · simp at h''

theorem resolved_cause :
    ∀ (tr : List TEv) (s : TState) (id : Nat) (v : String),
      (id, Settlement.resolved v) ∈ (tr.foldl step s).log →
      (id, Settlement.resolved v) ∈ s.log ∨ TEv.response id v ∈ tr
  | [], _, _, _, h => Or.inl h
  | e :: rest, s, id, v, h => by
    rcases resolved_cause rest (step s e) id v h with h' | h'
    · rcases resolved_mem_step h' with h'' | h''
      · exact Or.inl h''
      · exact Or.inr (h'' ▸ List.mem_cons_self _ _)
    · exact Or.inr (List.mem_cons_of_mem _ h')

theorem rejected_mem_step {s : TState} {e : TEv} {id : Nat} {err : JSError}
    (hne : e ≠ TEv.closeConn)
    (h : (id, Settlement.rejected err) ∈ (step s e).log) :
    (id, Settlement.rejected err) ∈ s.log ∨
    (∃ m, err = .generic ("Command " ++ m ++ " timed out after 30 seconds") ∧
      e = TEv.timeoutFire id) ∨
    (∃ m em, err = .generic ("Failed to send WebSocket message: " ++ em) ∧
      e = TEv.send m (some em)) := by
  cases e with
  | send m sendErr =>
    cases sendErr with
    | none => exact Or.inl h
    | some em =>
      have h' : (id, Settlement.rejected err) ∈
          s.log ++ [(s.messageId + 1,
            Settlement.rejected (.generic ("Failed to send WebSocket message: " ++ em)))] := h
      rcases List.mem_append.mp h' with h'' | h''
      · exact Or.inl h''
      · simp at h''
        exact Or.inr (Or.inr ⟨m, em, h''.2, rfl⟩)
  | response i p =>
    simp only [step] at h
    cases hf : findCall s.pending i with
    | none => rw [hf] at h; exact Or.inl h
    | some c =>
      rw [hf] at h
      have h' : (id, Settlement.rejected err) ∈ s.log ++ [(i, Settlement.resolved p)] := h
      rcases List.mem_append.mp h' with h'' | h''
      · exact Or.inl h''
      · simp at h''
  | timeoutFire i =>
    simp only [step] at h
    cases hf : findCall s.pending i with
    | none => rw [hf] at h; exact Or.inl h
    | some c =>
      rw [hf] at h
      have h' : (id, Settlement.rejected err) ∈ s.log ++
          [(i, Settlement.rejected (.generic ("Command " ++ c.method ++ " timed out after 30 seconds")))] := h
      rcases List.mem_append.mp h' with h'' | h''
      · exact Or.inl h''
      · simp at h''
        exact Or.inr (Or.inl ⟨c.method, h''.2, by rw [h''.1]⟩)
  | closeConn => exact absurd rfl hne

theorem rejected_cause :
    ∀ (tr : List TEv) (s : TState) (id : Nat) (err : JSError),
      TEv.closeConn ∉ tr →
      (id, Settlement.rejected err) ∈ (tr.foldl step s).log →
      (id, Settlement.rejected err) ∈ s.log ∨
      (∃ m, err = .generic ("Command " ++ m ++ " timed out after 30 seconds") ∧
        TEv.timeoutFire id ∈ tr) ∨
      (∃ m em, err = .generic ("Failed to send WebSocket message: " ++ em) ∧
        TEv.send m (some em) ∈ tr)
  | [], _, _, _, _, h => Or.inl h
  | e :: rest, s, id, err, hnc, h => by
    have hne : e ≠ TEv.closeConn := fun he => hnc (he ▸ List.mem_cons_self _ _)
    have hnc' : TEv.closeConn ∉ rest := fun hm => hnc (List.mem_cons_of_mem _ hm)
    rcases rejected_cause rest (step s e) id err hnc' h with h' | h' | h'
    · rcases rejected_mem_step hne h' with h'' | h'' | h''
      · exact Or.inl h''
      · obtain ⟨m, hm, hev⟩ := h''
        exact Or.inr (Or.inl ⟨m, hm, hev ▸ List.mem_cons_self _ _⟩)
      · obtain ⟨m, em, hm, hev⟩ := h''
        exact Or.inr (Or.inr ⟨m, em, hm, hev ▸ List.mem_cons_self _ _⟩)
    · obtain ⟨m, hm, hmem⟩ := h'
      exact Or.inr (Or.inl ⟨m, hm, List.mem_cons_of_mem _ hmem⟩)
    · obtain ⟨m, em, hm, hmem⟩ := h'
      exact Or.inr (Or.inr ⟨m, em, hm, List.mem_cons_of_mem _ hmem⟩)

theorem step_stable {s : TState} {id : Nat} (e : TEv)
    (hp : id ∉ pendingIds s) (hle : id ≤ s.messageId) :
    settleCount (step s e).log id = settleCount s.log id ∧
    id ∉ pendingIds (step s e) ∧ id ≤ (step s e).messageId := by
  have hpc : ∀ c ∈ s.pending, c.id ≠ id := by
    intro c hc he
    exact hp (he ▸ List.mem_map_of_mem (fun c => c.id) hc)
  cases e with
  | send m sendErr =>
    cases sendErr with
    | none =>
      refine ⟨rfl, ?_, by exact le_trans hle (Nat.le_succ _)⟩
      intro hmem
      obtain ⟨c, hc, hcid⟩ := List.mem_map.mp hmem
      have hc' : c ∈ s.pending ++ [⟨s.messageId + 1, m, commandTimeoutMs⟩] := hc
      rcases List.mem_append.mp hc' with h' | h'
      · exact hpc c h' hcid
      · simp at h'
        rw [h'] at hcid
        simp at hcid
        omega
    | some em =>
      refine ⟨?_, ?_, by exact le_trans hle (Nat.le_succ _)⟩
      · show settleCount (s.log ++ [(s.messageId + 1,
          Settlement.rejected (.generic ("Failed to send WebSocket message: " ++ em)))]) id =
          settleCount s.log id
        rw [settleCount_append, settleCount_single, if_neg (by omega)]
        omega
      · intro hmem
        simp only [pendingIds, step] at hmem
        obtain ⟨c, hc, hcid⟩ := List.mem_map.mp hmem
        obtain ⟨hcm, hcne⟩ := mem_removeId.mp hc
        rcases List.mem_append.mp hcm with h' | h'
        · exact hpc c h' hcid
        · simp at h'
          rw [h'] at hcid
          simp at hcid
          omega
  | response i p =>
    cases hf : findCall s.pending i with
    | none =>
      have hstep : step s (.response i p) = s := by simp only [step, hf]
      rw [hstep]
      exact ⟨rfl, hp, hle⟩
    | some c =>
      obtain ⟨hcm, hci⟩ := findCall_eq_some hf
      have hine : i ≠ id := hci ▸ hpc c hcm
      simp only [step, hf]
      refine ⟨?_, ?_, hle⟩
      · rw [settleCount_append, settleCount_single, if_neg hine]
        omega
      · intro hmem
        obtain ⟨c', hc', hcid⟩ := List.mem_map.mp hmem
        exact hpc c' (mem_removeId.mp hc').1 hcid
  | timeoutFire i =>
    cases hf : findCall s.pending i with
    | none =>
      have hstep : step s (.timeoutFire i) = s := by simp only [step, hf]
      rw [hstep]
      exact ⟨rfl, hp, hle⟩
    | some c =>
      obtain ⟨hcm, hci⟩ := findCall_eq_some hf
      have hine : i ≠ id := hci ▸ hpc c hcm
      simp only [step, hf]
      refine ⟨?_, ?_, hle⟩
      · rw [settleCount_append, settleCount_single, if_neg hine]
        omega
      · intro hmem
        obtain ⟨c', hc', hcid⟩ := List.mem_map.mp hmem
        exact hpc c' (mem_removeId.mp hc').1 hcid
  | closeConn =>
    refine ⟨?_, by simp [pendingIds, step], hle⟩
    show settleCount (s.log ++ s.pending.map
      (fun c => (c.id, Settlement.rejected (.generic "WebSocket connection closed")))) id =
      settleCount s.log id
    rw [settleCount_append, settleCount_close_map, pcount_eq_zero.mpr hpc]
    omega

theorem foldl_stable :
    ∀ (tr2 : List TEv) (s : TState) (id : Nat),
      id ∉ pendingIds s → id ≤ s.messageId →
      settleCount ((tr2.foldl step s)).log id = settleCount s.log id
  | [], _, _, _, _ => rfl
  | e :: rest, s, id, hp, hle => by
    obtain ⟨h1, h2, h3⟩ := step_stable e hp hle
    rw [List.foldl_cons, foldl_stable rest (step s e) id h2 h3, h1]

theorem allocIdsFrom_lt :
    ∀ (tr : List TEv) (mid : Nat), ∀ x ∈ allocIdsFrom mid tr, mid < x
  | [], _, x, hx => by simp [allocIdsFrom] at hx
  | .send m se :: rest, mid, x, hx => by
    rcases List.mem_cons.mp hx with h | h
    · omega
    · have := allocIdsFrom_lt rest (mid + 1) x h
      omega
  | .response i p :: rest, mid, x, hx => allocIdsFrom_lt rest mid x hx
  | .timeoutFire i :: rest, mid, x, hx => allocIdsFrom_lt rest mid x hx
  | .closeConn :: rest, mid, x, hx => allocIdsFrom_lt rest mid x hx

theorem allocIdsFrom_chain :
    ∀ (tr : List TEv) (mid : Nat), List.Pairwise (· < ·) (allocIdsFrom mid tr)
  | [], _ => List.Pairwise.nil
  | .send m se :: rest, mid => by
    refine List.Pairwise.cons ?_ (allocIdsFrom_chain rest (mid + 1))
    intro x hx
    exact allocIdsFrom_lt rest (mid + 1) x hx
  | .response i p :: rest, mid => allocIdsFrom_chain rest mid
  | .timeoutFire i :: rest, mid => allocIdsFrom_chain rest mid
  | .closeConn :: rest, mid => allocIdsFrom_chain rest mid

theorem messageId_eq_allocLen :
    ∀ (tr : List TEv) (s : TState),
      (tr.foldl step s).messageId = s.messageId + (allocIdsFrom s.messageId tr).length
  | [], s => rfl
  | .send m se :: rest, s => by
    have ih := messageId_eq_allocLen rest (step s (.send m se))
    have hmid : (step s (.send m se)).messageId = s.messageId + 1 := by
      cases se <;> rfl
    rw [List.foldl_cons, ih, hmid]
    simp [allocIdsFrom]
    omega
  | .response i p :: rest, s => by
    have ih := messageId_eq_allocLen rest (step s (.response i p))
    have hmid : (step s (.response i p)).messageId = s.messageId := by
      simp only [step]
      cases hf : findCall s.pending i <;> rfl
    rw [List.foldl_cons, ih, hmid]
    rfl
  | .timeoutFire i :: rest, s => by
    have ih := messageId_eq_allocLen rest (step s (.timeoutFire i))
    have hmid : (step s (.timeoutFire i)).messageId = s.messageId := by
      simp only [step]
      cases hf : findCall s.pending i <;> rfl
    rw [List.foldl_cons, ih, hmid]
    rfl
  | .closeConn :: rest, s => by
    have ih := messageId_eq_allocLen rest (step s .closeConn)
    rw [List.foldl_cons, ih]
    rfl

end Transport

namespace Transport

theorem close_step (tr : List TEv) :
    run (tr ++ [TEv.closeConn]) = step (run tr) TEv.closeConn := by
  rw [run_append]
  rfl

theorem close_settles_pending_once (tr : List TEv) :
    ∀ c ∈ (run tr).pending,
      settleCount (run (tr ++ [TEv.closeConn])).log c.id = 1 := by
  intro c hc
  rw [close_step]
  show settleCount ((run tr).log ++ (run tr).pending.map
    (fun c => (c.id, Settlement.rejected (.generic "WebSocket connection closed")))) c.id = 1
  rw [settleCount_append, settleCount_close_map]
  have h0 := (inv_run tr).pend_unsettled c hc
  have h1 := (inv_run tr).pend_once c.id
  have h2 : 0 < pcount (run tr).pending c.id := pcount_pos.mpr ⟨c, hc, rfl⟩
  omega

/-- C1: over any sequence of interleaved `sendCommand` calls, inbound
responses and timer firings on one open session (no connection-close
event), every message id is settled at most once, an id still in the
pending table is not yet settled (settlement and table removal
coincide), every resolution is caused by an inbound response bearing
that id, and every rejection is caused by the firing of that call's
timeout or by a websocket send failure. -/
theorem c1_pending_call_settled_exactly_once (tr : List TEv)
    (hnc : TEv.closeConn ∉ tr) (id : Nat) :
    settleCount (run tr).log id ≤ 1 ∧
    (id ∈ pendingIds (run tr) → settleCount (run tr).log id = 0) ∧
    (∀ v, (id, Settlement.resolved v) ∈ (run tr).log → TEv.response id v ∈ tr) ∧
    (∀ e, (id, Settlement.rejected e) ∈ (run tr).log →
      (∃ m, e = .generic ("Command " ++ m ++ " timed out after 30 seconds") ∧
        TEv.timeoutFire id ∈ tr) ∨
      (∃ m em, e = .generic ("Failed to send WebSocket message: " ++ em) ∧
        TEv.send m (some em) ∈ tr)) := by
  refine ⟨(inv_run tr).settle_le id, ?_, ?_, ?_⟩
  · intro hid
    obtain ⟨c, hc, hcid⟩ := List.mem_map.mp hid
    exact hcid ▸ (inv_run tr).pend_unsettled c hc
  · intro v hv
    rcases resolved_cause tr initState id v hv with h | h
    · simp [initState] at h
    · exact h
  · intro e he
    rcases rejected_cause tr initState id e hnc he with h | h | h
    · simp [initState] at h
    · exact Or.inl h
    · exact Or.inr h

theorem c1_pending_call_settled_exactly_once_witness :
    settleCount (run [TEv.send "Page.enable" none, TEv.response 1 "ok"]).log 1 ≤ 1 ∧
    (1 ∈ pendingIds (run [TEv.send "Page.enable" none, TEv.response 1 "ok"]) →
      settleCount (run [TEv.send "Page.enable" none, TEv.response 1 "ok"]).log 1 = 0) ∧
    (∀ v, ((1 : Nat), Settlement.resolved v) ∈
        (run [TEv.send "Page.enable" none, TEv.response 1 "ok"]).log →
      TEv.response 1 v ∈ [TEv.send "Page.enable" none, TEv.response 1 "ok"]) ∧
    (∀ e, ((1 : Nat), Settlement.rejected e) ∈
        (run [TEv.send "Page.enable" none, TEv.response 1 "ok"]).log →
      (∃ m, e = .generic ("Command " ++ m ++ " timed out after 30 seconds") ∧
        TEv.timeoutFire 1 ∈ [TEv.send "Page.enable" none, TEv.response 1 "ok"]) ∨
      (∃ m em, e = .generic ("Failed to send WebSocket message: " ++ em) ∧
        TEv.send m (some em) ∈ [TEv.send "Page.enable" none, TEv.response 1 "ok"])) :=
  c1_pending_call_settled_exactly_once
    [TEv.send "Page.enable" none, TEv.response 1 "ok"] (by decide) 1

/-- C2 counterexample: closing a session with one pending call rejects
it with the plain `Error('WebSocket connection closed')` of
browser.js line 503, which is not the `BrowserClosedError` class —
no closed-error class is used on this path. -/
theorem c2_close_rejects_with_plain_error_counterexample :
    (run [TEv.send "Page.enable" none, TEv.closeConn]).log =
      [(1, Settlement.rejected (JSError.generic "WebSocket connection closed"))] ∧
    isBrowserClosedError (JSError.generic "WebSocket connection closed") = false := by
  exact ⟨by decide, rfl⟩

/-- C2 (amended): closing a session with N pending calls empties the
pending table, appends exactly N rejections to the log — one per
pending call, each with the plain `Error('WebSocket connection
closed')`, not the library's `BrowserClosedError` class — each such
call is then settled exactly once, and no event sequence afterwards
ever settles any of those calls again. -/
theorem c2_close_rejects_all_pending (tr : List TEv) :
    (run (tr ++ [TEv.closeConn])).pending = [] ∧
    (run (tr ++ [TEv.closeConn])).log =
      (run tr).log ++ (run tr).pending.map
        (fun c => (c.id, Settlement.rejected (JSError.generic "WebSocket connection closed"))) ∧
    (∀ c ∈ (run tr).pending,
      settleCount (run (tr ++ [TEv.closeConn])).log c.id = 1) ∧
    (∀ c ∈ (run tr).pending, ∀ tr2 : List TEv,
      settleCount (run (tr ++ [TEv.closeConn] ++ tr2)).log c.id = 1) := by
  refine ⟨by rw [close_step]; rfl, by rw [close_step]; rfl,
    close_settles_pending_once tr, ?_⟩
  intro c hc tr2
  have hnp : c.id ∉ pendingIds (run (tr ++ [TEv.closeConn])) := by
    rw [close_step]
    simp [pendingIds, step]
  have hnle : c.id ≤ (run (tr ++ [TEv.closeConn])).messageId := by
    rw [close_step]
    exact (inv_run tr).pend_le c hc
  have hstep : settleCount (run (tr ++ [TEv.closeConn] ++ tr2)).log c.id =
      settleCount (run (tr ++ [TEv.closeConn])).log c.id := by
    rw [run_append (tr ++ [TEv.closeConn]) tr2]
    exact foldl_stable tr2 _ c.id hnp hnle
  rw [hstep]
  exact close_settles_pending_once tr c hc

theorem c2_close_rejects_all_pending_witness :
    settleCount
      (run ([TEv.send "Page.enable" none] ++ [TEv.closeConn] ++ [TEv.response 1 "late"])).log
      1 = 1 :=
  (c2_close_rejects_all_pending [TEv.send "Page.enable" none]).2.2.2
    ⟨1, "Page.enable", 30000⟩ (by decide) [TEv.response 1 "late"]

/-- C3: the message ids handed out by successive `sendCommand` calls of
one session are pairwise strictly increasing in issue order (hence
never reused while the session is open), and the counter equals the
number of sends so far. -/
theorem c3_ids_strictly_increasing (tr : List TEv) :
    List.Pairwise (· < ·) (allocIds tr) ∧
    (allocIds tr).Nodup ∧
    (run tr).messageId = (allocIds tr).length := by
  refine ⟨allocIdsFrom_chain tr 0, ?_, ?_⟩
  · exact (allocIdsFrom_chain tr 0).imp (fun h => Nat.ne_of_lt h)
  · have := messageId_eq_allocLen tr initState
    simpa [run, initState, allocIds] using this

/-- C4 counterexample: a call whose timer fires before its response is
rejected with the plain `Error('Command ... timed out after 30
seconds')` of browser.js line 550, which is not the library's
`TimeoutError` class. -/
theorem c4_timeout_plain_error_counterexample :
    (run [TEv.send "Page.navigate" none, TEv.timeoutFire 1]).log =
      [(1, Settlement.rejected
        (JSError.generic "Command Page.navigate timed out after 30 seconds"))] ∧
    isTimeoutError (JSError.generic "Command Page.navigate timed out after 30 seconds") =
      false := by
  exact ⟨by decide, rfl⟩

/-- C4 (amended): every pending call's timer is armed with the fixed
30000 ms delay (not overridable); if the timer fires while the call is
still pending the call is rejected with a plain timeout `Error` (not
the `TimeoutError` class); if the matching response arrives first the
call resolves with that response and the later timer firing is a
no-op. -/
theorem c4_timeout_or_response (tr : List TEv) (id : Nat) (c : PCall)
    (h : findCall (run tr).pending id = some c) :
    c.delayMs = 30000 ∧
    run (tr ++ [TEv.timeoutFire id]) =
      { run tr with
        pending := removeId (run tr).pending id
        log := (run tr).log ++
          [(id, Settlement.rejected
            (JSError.generic ("Command " ++ c.method ++ " timed out after 30 seconds")))] } ∧
    isTimeoutError
      (JSError.generic ("Command " ++ c.method ++ " timed out after 30 seconds")) = false ∧
    (∀ v, run (tr ++ [TEv.response id v]) =
      { run tr with
        pending := removeId (run tr).pending id
        log := (run tr).log ++ [(id, Settlement.resolved v)] }) ∧
    (∀ v, run (tr ++ [TEv.response id v, TEv.timeoutFire id]) =
      run (tr ++ [TEv.response id v])) := by
  refine ⟨(inv_run tr).delay30 c (findCall_eq_some h).1, ?_, rfl, ?_, ?_⟩
  · rw [run_append]
    show step (run tr) (TEv.timeoutFire id) = _
    simp only [step, h]
  · intro v
    rw [run_append]
    show step (run tr) (TEv.response id v) = _
    simp only [step, h]
  · intro v
    rw [run_append, run_append]
    show List.foldl step (run tr) [TEv.response id v, TEv.timeoutFire id] =
      List.foldl step (run tr) [TEv.response id v]
    simp only [List.foldl_cons, List.foldl_nil]
    have hresp : step (run tr) (TEv.response id v) =
        { run tr with
          pending := removeId (run tr).pending id
          log := (run tr).log ++ [(id, Settlement.resolved v)] } := by
      simp only [step, h]
    rw [hresp]
    simp only [step, findCall_removeId]

theorem c4_timeout_or_response_witness :
    PCall.delayMs ⟨1, "Page.navigate", 30000⟩ = 30000 ∧
    run ([TEv.send "Page.navigate" none] ++ [TEv.timeoutFire 1]) =
      { run [TEv.send "Page.navigate" none] with
        pending := removeId (run [TEv.send "Page.navigate" none]).pending 1
        log := (run [TEv.send "Page.navigate" none]).log ++
          [(1, Settlement.rejected
            (JSError.generic ("Command " ++ "Page.navigate" ++ " timed out after 30 seconds")))] } :=
  ⟨(c4_timeout_or_response [TEv.send "Page.navigate" none] 1
      ⟨1, "Page.navigate", 30000⟩ (by decide)).1,
   (c4_timeout_or_response [TEv.send "Page.navigate" none] 1
      ⟨1, "Page.navigate", 30000⟩ (by decide)).2.1⟩

end Transport

/-- C5: the navigation-wait readiness mapping of `Page._waitForNavigation`:
`load` completes exactly on `"complete"` (with no extra delay);
`domcontentloaded` completes exactly on `"interactive"` or `"complete"`;
`networkidle0` and `networkidle2` complete exactly on `"complete"`, with
additional fixed quiet periods of 500 ms and 300 ms respectively; and the
loop in `domcontentloaded` mode over the flag sequence
[loading, interactive] resolves at the second poll without waiting for
`"complete"`. -/
theorem c5_navigation_readiness_mapping (rs : String) :
    (Nav.navCheck "load" rs = some 0 ↔ rs = "complete") ∧
    ((Nav.navCheck "domcontentloaded" rs).isSome ↔
      rs = "interactive" ∨ rs = "complete") ∧
    (Nav.navCheck "networkidle0" rs = if rs = "complete" then some 500 else none) ∧
    (Nav.navCheck "networkidle2" rs = if rs = "complete" then some 300 else none) ∧
    Nav.navLoop "domcontentloaded" ["loading", "interactive"] = some (1, 0) := by
  refine ⟨?_, ?_, ?_, ?_, by decide⟩ <;>
    by_cases h1 : rs = "complete" <;> by_cases h2 : rs = "interactive" <;>
      simp [Nav.navCheck, h1, h2]

namespace Attach

theorem fetchPagesAux_failure (outcome : Nat → Attempt)
    (h : ∀ n, n ≤ maxRetries → (outcome n).isOk = false) :
    ∀ (k r : Nat), r + k = maxRetries →
      ∃ m,
        fetchPagesAux outcome r r =
          ⟨.error (.generic ("Failed to fetch active pages: " ++ m)),
            maxRetries + 1, maxRetries * retryDelayMs⟩ ∨
        fetchPagesAux outcome r r =
          ⟨.error (.generic ("Failed to parse JSON: " ++ m)),
            maxRetries + 1, maxRetries * retryDelayMs⟩
  | 0, r, hr => by
    have hro : (outcome r).isOk = false := h r (by omega)
    have hrm : r = maxRetries := by omega
    cases ho : outcome r with
    | ok t => rw [ho] at hro; simp [Attempt.isOk] at hro
    | httpError m =>
      refine ⟨m, Or.inl ?_⟩
      rw [fetchPagesAux]
      simp only [ho]
      rw [dif_neg (by omega)]
      rw [hrm]
    | parseError m =>
      refine ⟨m, Or.inr ?_⟩
      rw [fetchPagesAux]
      simp only [ho]
      rw [dif_neg (by omega)]
      rw [hrm]
  | k + 1, r, hr => by
    have hro : (outcome r).isOk = false := h r (by omega)
    have ih := fetchPagesAux_failure outcome h k (r + 1) (by omega)
    cases ho : outcome r with
    | ok t => rw [ho] at hro; simp [Attempt.isOk] at hro
    | httpError m =>
      rw [fetchPagesAux]
      simp only [ho]
      rw [dif_pos (by omega)]
      exact ih
    | parseError m =>
      rw [fetchPagesAux]
      simp only [ho]
      rw [dif_pos (by omega)]
      exact ih

end Attach

namespace Attach

theorem fetchPagesAux_allFail :
    ∀ (k r : Nat), r + k = maxRetries →
      fetchPagesAux allFail r r =
        ⟨.error (.generic "Failed to fetch active pages: connect ECONNREFUSED"),
          maxRetries + 1, maxRetries * retryDelayMs⟩
  | 0, r, hr => by
    have hrm : r = maxRetries := by omega
    rw [fetchPagesAux]
    simp only [allFail]
    rw [dif_neg (by omega), hrm]
    rfl
  | k + 1, r, hr => by
    rw [fetchPagesAux]
    simp only [allFail]
    rw [dif_pos (by omega)]
    exact fetchPagesAux_allFail k (r + 1) (by omega)

end Attach

/-- C6 counterexample: when the discovery endpoint refuses every
connection, the exhausted retry loop of `Browser.attachToPage` rejects
with the plain `Error('Failed to fetch active pages: ...')` of
browser.js line 425 — not an instance of any named error class of the
library (which defines no `ConnectionError` at all). -/
theorem c6_exhausted_retries_plain_error_counterexample :
    (Attach.fetchPages Attach.allFail).result =
      .error (Transport.JSError.generic "Failed to fetch active pages: connect ECONNREFUSED") ∧
    Transport.isNamedErrorClass
      (Transport.JSError.generic "Failed to fetch active pages: connect ECONNREFUSED") = false := by
  have h2 : Attach.fetchPages Attach.allFail =
      ⟨.error (.generic "Failed to fetch active pages: connect ECONNREFUSED"),
        Attach.maxRetries + 1, Attach.maxRetries * Attach.retryDelayMs⟩ :=
    Attach.fetchPagesAux_allFail Attach.maxRetries 0 (by omega)
  rw [h2]
  exact ⟨rfl, rfl⟩

/-- C6 (amended): the discovery polling of `Browser.attachToPage` makes
at most 20 retries spaced 1000 ms apart (21 HTTP attempts in total);
once every attempt up to the bound has failed, it rejects with a plain
`Error` whose message is `'Failed to fetch active pages: ...'` or
`'Failed to parse JSON: ...'` — the library defines no `ConnectionError`
class. -/
theorem c6_bounded_retries_then_plain_error (outcome : Nat → Attach.Attempt)
    (h : ∀ n, n ≤ Attach.maxRetries → (outcome n).isOk = false) :
    (Attach.fetchPages outcome).attempts = Attach.maxRetries + 1 ∧
    (Attach.fetchPages outcome).totalDelayMs = Attach.maxRetries * Attach.retryDelayMs ∧
    ∃ m,
      (Attach.fetchPages outcome).result =
        .error (Transport.JSError.generic ("Failed to fetch active pages: " ++ m)) ∨
      (Attach.fetchPages outcome).result =
        .error (Transport.JSError.generic ("Failed to parse JSON: " ++ m)) := by
  obtain ⟨m, hm | hm⟩ :=
    Attach.fetchPagesAux_failure outcome h Attach.maxRetries 0 (by omega)
  · have h2 : Attach.fetchPages outcome = _ := hm
    rw [h2]
    exact ⟨rfl, rfl, m, Or.inl rfl⟩
  · have h2 : Attach.fetchPages outcome = _ := hm
    rw [h2]
    exact ⟨rfl, rfl, m, Or.inr rfl⟩

theorem c6_bounded_retries_then_plain_error_witness :
    (Attach.fetchPages Attach.allFail).attempts = 21 ∧
    (Attach.fetchPages Attach.allFail).totalDelayMs = 20000 :=
  ⟨(c6_bounded_retries_then_plain_error Attach.allFail (fun n _ => rfl)).1,
   (c6_bounded_retries_then_plain_error Attach.allFail (fun n _ => rfl)).2.1⟩


/-- C7 counterexample: the consumed-once guard `_firstPageCreated` is
per-context while `initialTargetId` is per-browser, so the first
`newPage()` on a second, fresh context returns the initial target
"T0" again after the first context already consumed it. -/
theorem c7_initial_target_returned_twice_counterexample :
    (Registry.newPage ⟨some "T0"⟩ ⟨false⟩
      ⟨[⟨"T0", "page", "about:blank"⟩], 0⟩).pageTargetId = "T0" ∧
    (Registry.newPage ⟨some "T0"⟩ ⟨false⟩
      (Registry.newPage ⟨some "T0"⟩ ⟨false⟩
        ⟨[⟨"T0", "page", "about:blank"⟩], 0⟩).remote).pageTargetId = "T0" :=
  ⟨rfl, rfl⟩

/-- C7 (amended): on each context, the first `newPage()` call (when the
browser captured an initial target id that the remote still lists as a
page) returns that initial target, issuing only `Target.getTargets` and
creating nothing; every later call on that context issues
`Target.createTarget` and `Target.attachToTarget` and returns the fresh
target; but the guard is per-context, not per-browser: the first call
on any other fresh context returns the same initial target again. -/
theorem c7_initial_target_reused_per_context
    (br : Registry.BrowserModel) (ctx ctx2 : Registry.CtxState)
    (remote : Registry.RemoteState) (init : String) (t : Registry.TargetInfo)
    (hbr : br.initialTargetId = some init)
    (hctx : ctx.firstPageCreated = false)
    (hfind : remote.targets.find? (fun u => u.targetId == init && u.ttype == "page") = some t) :
    (Registry.newPage br ctx remote).pageTargetId = t.targetId ∧
    (Registry.newPage br ctx remote).cmds = [Registry.Cmd.getTargets] ∧
    (Registry.newPage br ctx remote).ctx.firstPageCreated = true ∧
    (Registry.newPage br ctx remote).remote = remote ∧
    (∀ remote2 : Registry.RemoteState,
      (Registry.newPage br (Registry.newPage br ctx remote).ctx remote2).cmds =
        [Registry.Cmd.createTarget, Registry.Cmd.attachToTarget] ∧
      (Registry.newPage br (Registry.newPage br ctx remote).ctx remote2).pageTargetId =
        Registry.freshTargetId remote2.nextId ∧
      (Registry.newPage br (Registry.newPage br ctx remote).ctx remote2).remote.targets =
        remote2.targets ++ [⟨Registry.freshTargetId remote2.nextId, "page", "about:blank"⟩]) ∧
    (ctx2.firstPageCreated = false →
      (Registry.newPage br ctx2 remote).pageTargetId = t.targetId) := by
  obtain ⟨it⟩ := br
  obtain ⟨fp⟩ := ctx
  dsimp only at hbr hctx
  subst hbr
  subst hctx
  have hmain : Registry.newPage ⟨some init⟩ ⟨false⟩ remote =
      { pageTargetId := t.targetId, ctx := ⟨true⟩, remote := remote,
        cmds := [Registry.Cmd.getTargets] } := by
    simp only [Registry.newPage, hfind]
  refine ⟨by rw [hmain], by rw [hmain], by rw [hmain], by rw [hmain], ?_, ?_⟩
  · intro remote2
    rw [hmain]
    exact ⟨rfl, rfl, rfl⟩
  · intro hctx2
    obtain ⟨fp2⟩ := ctx2
    dsimp only at hctx2
    subst hctx2
    have hmain2 : Registry.newPage ⟨some init⟩ ⟨false⟩ remote =
        { pageTargetId := t.targetId, ctx := ⟨true⟩, remote := remote,
          cmds := [Registry.Cmd.getTargets] } := by
      simp only [Registry.newPage, hfind]
    rw [hmain2]

theorem c7_initial_target_reused_per_context_witness :
    (Registry.newPage ⟨some "T0"⟩ (⟨false⟩ : Registry.CtxState)
      ⟨[⟨"T0", "page", "about:blank"⟩], 0⟩).pageTargetId =
      Registry.TargetInfo.targetId ⟨"T0", "page", "about:blank"⟩ ∧
    (Registry.newPage ⟨some "T0"⟩ (⟨false⟩ : Registry.CtxState)
      ⟨[⟨"T0", "page", "about:blank"⟩], 0⟩).pageTargetId =
      Registry.TargetInfo.targetId ⟨"T0", "page", "about:blank"⟩ ∧
    (Registry.newPage ⟨some "T0"⟩
      (Registry.newPage ⟨some "T0"⟩ (⟨false⟩ : Registry.CtxState)
        ⟨[⟨"T0", "page", "about:blank"⟩], 0⟩).ctx
      ⟨[⟨"T0", "page", "about:blank"⟩], 5⟩).cmds =
      [Registry.Cmd.createTarget, Registry.Cmd.attachToTarget] :=
  ⟨(c7_initial_target_reused_per_context ⟨some "T0"⟩ ⟨false⟩ ⟨false⟩
      ⟨[⟨"T0", "page", "about:blank"⟩], 0⟩ "T0" ⟨"T0", "page", "about:blank"⟩
      rfl rfl rfl).1,
   (c7_initial_target_reused_per_context ⟨some "T0"⟩ ⟨false⟩ ⟨false⟩
      ⟨[⟨"T0", "page", "about:blank"⟩], 0⟩ "T0" ⟨"T0", "page", "about:blank"⟩
      rfl rfl rfl).2.2.2.2.2 rfl,
   ((c7_initial_target_reused_per_context ⟨some "T0"⟩ ⟨false⟩ ⟨false⟩
      ⟨[⟨"T0", "page", "about:blank"⟩], 0⟩ "T0" ⟨"T0", "page", "about:blank"⟩
      rfl rfl rfl).2.2.2.2.1 ⟨[⟨"T0", "page", "about:blank"⟩], 5⟩).1⟩

/-- C8 counterexample: after a successful `Page.close` sets the closed
flag, a subsequent `goto` on the closed page does not fail with any
closed-error — it issues its navigation commands and succeeds when the
transport does. -/
theorem c8_goto_after_close_succeeds_counterexample :
    (PageM.pageClose (.ok ()) ⟨false, "about:blank"⟩).1 = .ok ⟨true, "about:blank"⟩ ∧
    (PageM.pageGoto (.ok ()) ⟨true, "about:blank"⟩ "http://example.com").1 =
      .ok ⟨true, "http://example.com"⟩ ∧
    (PageM.pageGoto (.ok ()) ⟨true, "about:blank"⟩ "http://example.com").2 =
      ["Page.enable", "Network.enable", "Page.navigate"] :=
  ⟨rfl, rfl, rfl⟩

/-- C8 (amended): `Page.close` sets the page's closed flag, but no other
page operation consults it: `goto` on a closed page does not fail with
`ClosedError` — with a working transport it succeeds and records the
new url, and it can only reject with an error produced by the transport
itself, never with a synthesized closed-page error. -/
theorem c8_closed_page_operations_not_guarded
    (p : PageM.PageState) (url : String) (t : Except Transport.JSError Unit) :
    (PageM.pageClose (.ok ()) p).1 = .ok { p with closed := true } ∧
    (PageM.pageGoto (.ok ()) { p with closed := true } url).1 =
      .ok { p with closed := true, url := url } ∧
    (∀ e, (PageM.pageGoto t { p with closed := true } url).1 = .error e →
      t = .error e) := by
  refine ⟨?_, rfl, ?_⟩
  · obtain ⟨c0, u0⟩ := p
    cases c0 <;> simp [PageM.pageClose]
  · intro e he
    cases t with
    | ok u => simp [PageM.pageGoto] at he
    | error e2 =>
      have h2 : e2 = e := by simpa [PageM.pageGoto] using he
      rw [h2]

theorem c8_closed_page_operations_not_guarded_witness :
    (PageM.pageClose (.ok ()) ⟨false, "about:blank"⟩).1 = .ok ⟨true, "about:blank"⟩ ∧
    (Except.error (Transport.JSError.generic "socket hang up") :
      Except Transport.JSError Unit) = .error (.generic "socket hang up") :=
  ⟨(c8_closed_page_operations_not_guarded ⟨false, "about:blank"⟩
      "http://example.com" (.ok ())).1,
   (c8_closed_page_operations_not_guarded ⟨false, "about:blank"⟩
      "http://example.com" (.error (.generic "socket hang up"))).2.2
      (.generic "socket hang up") rfl⟩

/-- C9: `Page.close` is idempotent: on a page whose closed flag is
already set it returns immediately, issues no remote command and leaves
the state unchanged, and closing a page twice is observationally the
same as closing it once. -/
theorem c9_page_close_idempotent
    (t t2 : Except Transport.JSError Unit) (p : PageM.PageState) :
    (p.closed = true → PageM.pageClose t p = (.ok p, [])) ∧
    (∀ q, (PageM.pageClose (.ok ()) p).1 = .ok q →
      PageM.pageClose t2 q = (.ok q, [])) := by
  constructor
  · intro h
    simp [PageM.pageClose, h]
  · intro q hq
    obtain ⟨c0, u0⟩ := p
    cases c0 with
    | true =>
      simp [PageM.pageClose] at hq
      subst hq
      simp [PageM.pageClose]
    | false =>
      simp [PageM.pageClose] at hq
      subst hq
      simp [PageM.pageClose]

theorem c9_page_close_idempotent_witness :
    PageM.pageClose (.ok ()) ⟨true, "about:blank"⟩ = (.ok ⟨true, "about:blank"⟩, []) ∧
    PageM.pageClose (.ok ()) ⟨true, "http://example.com"⟩ =
      (.ok ⟨true, "http://example.com"⟩, []) :=
  ⟨(c9_page_close_idempotent (.ok ()) (.ok ()) ⟨true, "about:blank"⟩).1 rfl,
   (c9_page_close_idempotent (.ok ()) (.ok ()) ⟨false, "http://example.com"⟩).2
     ⟨true, "http://example.com"⟩ rfl⟩

/-- C10: `parseProxyUrl` is total: for every input string it returns
either `null` (any internal throw, including unsupported formats, is
caught) or a descriptor whose `proxyServer` is exactly the
concatenation of protocol, "://", host, ":" and the rendered port, and
whose `hasAuth` is true exactly when both username and password are
present (truthy). -/
theorem c10_parse_proxy_total (s : String) :
    Proxy.parseProxyUrl s = none ∨
    ∃ d : Proxy.ProxyInfo, Proxy.parseProxyUrl s = some d ∧
      d.proxyServer = d.protocol ++ "://" ++ d.host ++ ":" ++ Proxy.jsNumToString d.port ∧
      d.hasAuth = (Proxy.jsTruthy d.username && Proxy.jsTruthy d.password) := by
  cases h : Proxy.parseProxyCore s with
  | error e =>
    left
    simp [Proxy.parseProxyUrl, h]
  | ok r =>
    right
    exact ⟨Proxy.mkProxyInfo r, by simp [Proxy.parseProxyUrl, h], rfl, rfl⟩
